import Mathlib

/-!
Verification of the FoxgloveExtension drone-dashboard numeric core:
the quaternion-to-Euler orientation converter, the IMU heading
normalization, and the gauge geometry (attitude indicator, compass,
altimeter, airspeed and vertical-speed indicators).  Definitions are a
shallow embedding over the reals of the corresponding TypeScript
functions; JavaScript `Math.atan2`, `Math.asin`, `Math.sign` and the
`%` operator are modelled by their exact real-number semantics.
-/

namespace FoxgloveExtension

/-- Real-number semantics of JavaScript `Math.atan2(y, x)`:
principal value of the argument of the point (x, y), with range (-pi, pi]
(the real line has no negative zero, so the x &lt; 0, y = 0 ray maps to pi). -/
noncomputable def atan2 (y x : ℝ) : ℝ :=
  if 0 < x then Real.arctan (y / x)
  else if x < 0 then
    (if 0 ≤ y then Real.arctan (y / x) + Real.pi else Real.arctan (y / x) - Real.pi)
  else if 0 < y then Real.pi / 2
  else if y < 0 then -(Real.pi / 2)
  else 0

/-- Truncation toward zero, as used by the JavaScript `%` operator. -/
noncomputable def jsTrunc (x : ℝ) : ℤ :=
  if 0 ≤ x then ⌊x⌋ else ⌈x⌉

/-- Real-number semantics of the JavaScript remainder operator `a % b`
(truncated division, result has the sign of the dividend). -/
noncomputable def jsMod (a b : ℝ) : ℝ :=
  a - b * (jsTrunc (a / b) : ℝ)

/-- Quaternion input `{x, y, z, w}` of `quaternionToEuler`
(src/src/DroneDashboardPanel.tsx). -/
structure Quaternion where
  x : ℝ
  y : ℝ
  z : ℝ
  w : ℝ

/-- Euler-angle result `{roll, pitch, yaw}` of `quaternionToEuler`, in degrees. -/
structure EulerAngles where
  roll : ℝ
  pitch : ℝ
  yaw : ℝ

/-- `sinr_cosp = 2 * (w * x + y * z)` (DroneDashboardPanel.tsx line 93). -/
noncomputable def sinr_cosp (q : Quaternion) : ℝ := 2 * (q.w * q.x + q.y * q.z)

/-- `cosr_cosp = 1 - 2 * (x * x + y * y)` (DroneDashboardPanel.tsx line 94). -/
noncomputable def cosr_cosp (q : Quaternion) : ℝ := 1 - 2 * (q.x * q.x + q.y * q.y)

/-- `sinp = 2 * (w * y - z * x)` (DroneDashboardPanel.tsx line 98). -/
noncomputable def sinp (q : Quaternion) : ℝ := 2 * (q.w * q.y - q.z * q.x)

/-- `siny_cosp = 2 * (w * z + x * y)` (DroneDashboardPanel.tsx line 105). -/
noncomputable def siny_cosp (q : Quaternion) : ℝ := 2 * (q.w * q.z + q.x * q.y)

/-- `cosy_cosp = 1 - 2 * (y * y + z * z)` (DroneDashboardPanel.tsx line 106). -/
noncomputable def cosy_cosp (q : Quaternion) : ℝ := 1 - 2 * (q.y * q.y + q.z * q.z)

/-- Embedding of `quaternionToEuler` (src/src/DroneDashboardPanel.tsx lines
84-110, duplicated verbatim in MinimalDashboardPanel.tsx and in
src/unnamed/part_001).  `Math.sign` is modelled by `Real.sign`, which takes
the same values -1, 0, 1. -/
noncomputable def quaternionToEuler (q : Quaternion) : EulerAngles :=
  { roll := atan2 (sinr_cosp q) (cosr_cosp q) * (180 / Real.pi)
    pitch :=
      if 1 ≤ |sinp q| then Real.sign (sinp q) * 90
      else Real.arcsin (sinp q) * (180 / Real.pi)
    yaw := atan2 (siny_cosp q) (cosy_cosp q) * (180 / Real.pi) }

/-- The converter as the specification writes it, formula by formula:
roll = atan2(2(wx+yz), 1-2(x²+y²))·180/π, pitch clamped to sign(sinp)·90
when |sinp| ≥ 1 and asin(sinp)·180/π otherwise, yaw = atan2(2(wz+xy),
1-2(y²+z²))·180/π.  Kept separate from `quaternionToEuler` so the code
and the spec formulas can be compared. -/
noncomputable def quaternionToEulerSpec (q : Quaternion) : EulerAngles :=
  { roll := atan2 (2 * (q.w * q.x + q.y * q.z)) (1 - 2 * (q.x * q.x + q.y * q.y))
        * (180 / Real.pi)
    pitch :=
      if 1 ≤ |2 * (q.w * q.y - q.z * q.x)| then
        Real.sign (2 * (q.w * q.y - q.z * q.x)) * 90
      else Real.arcsin (2 * (q.w * q.y - q.z * q.x)) * (180 / Real.pi)
    yaw := atan2 (2 * (q.w * q.z + q.x * q.y)) (1 - 2 * (q.y * q.y + q.z * q.z))
        * (180 / Real.pi) }

/-- 3-component vector (acceleration, gyro, magnetometer). -/
structure Vec3 where
  x : ℝ
  y : ℝ
  z : ℝ

/-- IMU message payload consumed by the panel (DroneDashboardPanel.tsx). -/
structure ImuData where
  orientation : Quaternion
  angular_velocity : Vec3
  linear_acceleration : Vec3

/-- Consolidated telemetry snapshot `DroneData` (DroneDashboardPanel.tsx). -/
structure DroneData where
  altitude : ℝ
  heading : ℝ
  roll : ℝ
  pitch : ℝ
  imuAcceleration : Vec3
  imuGyro : Vec3
  imuMag : Vec3

/-- The IMU branch of the panel render handler (DroneDashboardPanel.tsx
lines 156-169): converts the message quaternion to Euler angles and stores
roll, pitch, the normalized heading `(yaw + 360) % 360`, acceleration and
angular velocity into the snapshot. -/
noncomputable def processImuMessage (d : DroneData) (imu : ImuData) : DroneData :=
  let e := quaternionToEuler imu.orientation
  { d with
    roll := e.roll
    pitch := e.pitch
    heading := jsMod (e.yaw + 360) 360
    imuAcceleration := imu.linear_acceleration
    imuGyro := imu.angular_velocity }

/-- Axis-aligned rectangle as passed to `ctx.rect`/`ctx.fillRect`:
top-left corner (x, y), width w, height h (canvas y-axis points down). -/
structure Rect where
  x : ℝ
  y : ℝ
  w : ℝ
  h : ℝ

/-- A point lies in a canvas rectangle (closed region). -/
def Rect.mem (r : Rect) (p : ℝ × ℝ) : Prop :=
  r.x ≤ p.1 ∧ p.1 ≤ r.x + r.w ∧ r.y ≤ p.2 ∧ p.2 ≤ r.y + r.h

/-- The linear map applied to user-space coordinates by `ctx.rotate(t)`
in canvas device space. -/
noncomputable def rotatePoint (t : ℝ) (p : ℝ × ℝ) : ℝ × ℝ :=
  (Real.cos t * p.1 - Real.sin t * p.2, Real.sin t * p.1 + Real.cos t * p.2)

/-- `AttitudeIndicator` variant of src/src/components/attitude-indicator.tsx:
`pitchOffset = (pitch / 45) * radius` (line 61). -/
noncomputable def pitchOffsetExtended (pitch radius : ℝ) : ℝ := pitch / 45 * radius

/-- `extendedSize = radius * 3` (attitude-indicator.tsx line 64). -/
noncomputable def extendedSize (radius : ℝ) : ℝ := radius * 3

/-- Sky rectangle `ctx.rect(-extendedSize, -extendedSize - pitchOffset,
extendedSize * 2, extendedSize)` (attitude-indicator.tsx line 68),
in coordinates centered on the face, before the roll rotation. -/
noncomputable def skyRectExtended (pitch radius : ℝ) : Rect :=
  { x := -extendedSize radius
    y := -extendedSize radius - pitchOffsetExtended pitch radius
    w := extendedSize radius * 2
    h := extendedSize radius }

/-- Ground rectangle `ctx.rect(-extendedSize, -pitchOffset,
extendedSize * 2, extendedSize)` (attitude-indicator.tsx line 74). -/
noncomputable def groundRectExtended (pitch radius : ℝ) : Rect :=
  { x := -extendedSize radius
    y := -pitchOffsetExtended pitch radius
    w := extendedSize radius * 2
    h := extendedSize radius }

/-- `AttitudeIndicator` variant of src/unnamed/part_003:
`pitchOffset = (pitch / 90) * radius` (line 54). -/
noncomputable def pitchOffsetMinimal (pitch radius : ℝ) : ℝ := pitch / 90 * radius

/-- Sky rectangle `ctx.fillRect(-radius, -radius - pitchOffset,
radius * 2, radius)` (part_003 line 61): only 2·radius wide and
1·radius tall. -/
noncomputable def skyRectMinimal (pitch radius : ℝ) : Rect :=
  { x := -radius
    y := -radius - pitchOffsetMinimal pitch radius
    w := radius * 2
    h := radius }

/-- Ground rectangle `ctx.fillRect(-radius, -pitchOffset, radius * 2,
radius)` (part_003 line 65). -/
noncomputable def groundRectMinimal (pitch radius : ℝ) : Rect :=
  { x := -radius
    y := -pitchOffsetMinimal pitch radius
    w := radius * 2
    h := radius }

/-- Gauge face radius `radius = size * 0.45`, shared by every gauge. -/
noncomputable def faceRadius (size : ℝ) : ℝ := size * 0.45

/-- Airspeed gauge arc start `startAngle = -Math.PI * 0.75` (page.tsx line 78). -/
noncomputable def airspeedStartAngle : ℝ := -Real.pi * 0.75

/-- Airspeed gauge arc end `endAngle = Math.PI * 0.75` (page.tsx line 79). -/
noncomputable def airspeedEndAngle : ℝ := Real.pi * 0.75

/-- `totalAngle = endAngle - startAngle` (page.tsx line 80). -/
noncomputable def airspeedTotalAngle : ℝ := airspeedEndAngle - airspeedStartAngle

/-- Colors of the airspeed risk-zone arcs; `red` is "#ff3b30",
`yellow` is "#ffcc00", `green` is "#34c759" in the source. -/
inductive ZoneColor where
  | red : ZoneColor
  | yellow : ZoneColor
  | green : ZoneColor
deriving DecidableEq

/-- One colored arc drawn with `ctx.arc(centerX, centerY, radius - 5,
arcStart, arcEnd, false)`. -/
structure ArcZone where
  arcStart : ℝ
  arcEnd : ℝ
  color : ZoneColor

/-- The five colored risk-zone arcs of the airspeed gauge, in drawing
order (page.tsx lines 82-115).  The render closure has `maxAirspeed` in
scope but the zone boundaries do not use it. -/
noncomputable def airspeedZones (_maxAirspeed : ℝ) : List ArcZone :=
  [ { arcStart := airspeedStartAngle
      arcEnd := airspeedStartAngle + airspeedTotalAngle * 0.1
      color := ZoneColor.red }
  , { arcStart := airspeedStartAngle + airspeedTotalAngle * 0.1
      arcEnd := airspeedStartAngle + airspeedTotalAngle * 0.2
      color := ZoneColor.yellow }
  , { arcStart := airspeedStartAngle + airspeedTotalAngle * 0.2
      arcEnd := airspeedStartAngle + airspeedTotalAngle * 0.8
      color := ZoneColor.green }
  , { arcStart := airspeedStartAngle + airspeedTotalAngle * 0.8
      arcEnd := airspeedStartAngle + airspeedTotalAngle * 0.9
      color := ZoneColor.yellow }
  , { arcStart := airspeedStartAngle + airspeedTotalAngle * 0.9
      arcEnd := airspeedEndAngle
      color := ZoneColor.red } ]

/-- Airspeed needle angle `needleAngle = startAngle +
(airspeed / maxAirspeed) * totalAngle` (page.tsx line 164).  The raw
airspeed is used: there is no clamp. -/
noncomputable def airspeedNeedleAngle (airspeed maxAirspeed : ℝ) : ℝ :=
  airspeedStartAngle + airspeed / maxAirspeed * airspeedTotalAngle

/-- Vertical-speed gauge arc start `startAngle = -Math.PI / 2`
(altimeter.tsx line 428). -/
noncomputable def vsiStartAngle : ℝ := -Real.pi / 2

/-- Vertical-speed gauge arc end `endAngle = Math.PI * 1.5`
(altimeter.tsx line 429). -/
noncomputable def vsiEndAngle : ℝ := Real.pi * 1.5

/-- `totalAngle = endAngle - startAngle` (altimeter.tsx line 430). -/
noncomputable def vsiTotalAngle : ℝ := vsiEndAngle - vsiStartAngle

/-- `tickSpacing = totalAngle / majorTickCount` with `majorTickCount =
maxVerticalSpeed * 2` (altimeter.tsx lines 444-445). -/
noncomputable def vsiTickSpacing (maxVerticalSpeed : ℝ) : ℝ :=
  vsiTotalAngle / (maxVerticalSpeed * 2)

/-- `needleValue = Math.max(-maxVerticalSpeed, Math.min(maxVerticalSpeed,
verticalSpeed))` (altimeter.tsx line 488): explicit clamp to the range. -/
noncomputable def vsiNeedleValue (verticalSpeed maxVerticalSpeed : ℝ) : ℝ :=
  max (-maxVerticalSpeed) (min maxVerticalSpeed verticalSpeed)

/-- `needleAngle = startAngle + (needleValue + maxVerticalSpeed) *
tickSpacing` (altimeter.tsx line 489). -/
noncomputable def vsiNeedleAngle (verticalSpeed maxVerticalSpeed : ℝ) : ℝ :=
  vsiStartAngle + (vsiNeedleValue verticalSpeed maxVerticalSpeed + maxVerticalSpeed)
    * vsiTickSpacing maxVerticalSpeed

/-- The verticalSpeed-dependent drawing output of the vertical-speed
gauge: the needle rotation `ctx.rotate(needleAngle)` (altimeter.tsx line
493) and the digital readout value printed by
`ctx.fillText(verticalSpeed.toFixed(1) + " m/s", ...)` (line 526).
Every other primitive of the gauge depends only on size, darkMode and
maxVerticalSpeed. -/
structure VSIRender where
  needleAngle : ℝ
  readoutValue : ℝ

/-- The vertical-speed gauge render, restricted to its
verticalSpeed-dependent primitives. -/
noncomputable def vsiRender (verticalSpeed maxVerticalSpeed : ℝ) : VSIRender :=
  { needleAngle := vsiNeedleAngle verticalSpeed maxVerticalSpeed
    readoutValue := verticalSpeed }

/-- Altimeter needle angle `needleAngle = (altitude / maxAltitude) *
Math.PI * 2` (altimeter.tsx line 114), in radians from the needle's
upward zero reference. -/
noncomputable def altimeterNeedleAngle (altitude maxAltitude : ℝ) : ℝ :=
  altitude / maxAltitude * Real.pi * 2

/-- Compass dial rotation `ctx.rotate((-heading * Math.PI) / 180)`
(src/src/components/Compass.tsx line 54 and the Compass of
attitude-indicator.tsx line 260), in radians. -/
noncomputable def compassDialAngle (heading : ℝ) : ℝ :=
  -heading * Real.pi / 180

/-- The embedded `Math.atan2` takes values in the interval (-pi, pi]. -/
theorem atan2_range (y x : ℝ) : -Real.pi < atan2 y x ∧ atan2 y x ≤ Real.pi := by
  have hpi := Real.pi_pos
  have h1 := Real.arctan_lt_pi_div_two (y / x)
  have h2 := Real.neg_pi_div_two_lt_arctan (y / x)
  unfold atan2
  split_ifs with hx hx' hy hy' hy''
  · exact ⟨by linarith, by linarith⟩
  · have hyx : y / x ≤ 0 := div_nonpos_iff.mpr (Or.inl ⟨hy, hx'.le⟩)
    have h3 : Real.arctan (y / x) ≤ 0 := by
      have := Real.arctan_strictMono.monotone hyx
      rwa [Real.arctan_zero] at this
    exact ⟨by linarith, by linarith⟩
  · have hyx : 0 < y / x := div_pos_iff.mpr (Or.inr ⟨not_le.mp hy, hx'⟩)
    have h3 : 0 < Real.arctan (y / x) := by
      have := Real.arctan_strictMono hyx
      rwa [Real.arctan_zero] at this
    exact ⟨by linarith, by linarith⟩
  · exact ⟨by linarith, by linarith⟩
  · exact ⟨by linarith, by linarith⟩
  · exact ⟨by linarith, by linarith⟩

/-- Converting an `atan2` value to degrees lands in [-180, 180]. -/
theorem atan2_deg_range (y x : ℝ) :
    -180 ≤ atan2 y x * (180 / Real.pi) ∧ atan2 y x * (180 / Real.pi) ≤ 180 := by
  obtain ⟨h1, h2⟩ := atan2_range y x
  have hpi := Real.pi_pos
  have hc : (0 : ℝ) < 180 / Real.pi := by positivity
  have hl : -Real.pi * (180 / Real.pi) ≤ atan2 y x * (180 / Real.pi) :=
    mul_le_mul_of_nonneg_right h1.le hc.le
  have hr : atan2 y x * (180 / Real.pi) ≤ Real.pi * (180 / Real.pi) :=
    mul_le_mul_of_nonneg_right h2 hc.le
  have heq : Real.pi * (180 / Real.pi) = 180 := by
    field_simp
  constructor
  · calc (-180 : ℝ) = -Real.pi * (180 / Real.pi) := by rw [neg_mul, heq]
    _ ≤ _ := hl
  · calc atan2 y x * (180 / Real.pi) ≤ Real.pi * (180 / Real.pi) := hr
    _ = 180 := heq

/-- The JavaScript remainder of a nonnegative dividend by a positive
divisor lies in [0, divisor). -/
theorem jsMod_nonneg_lt (a b : ℝ) (ha : 0 ≤ a) (hb : 0 < b) :
    0 ≤ jsMod a b ∧ jsMod a b < b := by
  have hq : (0 : ℝ) ≤ a / b := div_nonneg ha hb.le
  have hfr : jsMod a b = b * Int.fract (a / b) := by
    unfold jsMod jsTrunc
    rw [if_pos hq, ← Int.self_sub_floor (a / b)]
    field_simp
  rw [hfr]
  constructor
  · exact mul_nonneg hb.le (Int.fract_nonneg _)
  · have := Int.fract_lt_one (a / b)
    nlinarith

/-- Claim C1: the quaternion-to-Euler converter returns, for every
quaternion (x, y, z, w), exactly the spec formulas
roll = atan2(2(wx+yz), 1-2(x²+y²))·180/π,
pitch = |2(wy-zx)| ≥ 1 ? sign·90 : asin(2(wy-zx))·180/π,
yaw = atan2(2(wz+xy), 1-2(y²+z²))·180/π, in degrees; and for the
identity quaternion {x:0, y:0, z:0, w:1} it returns
{roll:0, pitch:0, yaw:0}. -/
theorem quaternionToEuler_correct :
    (∀ q : Quaternion, quaternionToEuler q = quaternionToEulerSpec q)
    ∧ quaternionToEuler ⟨0, 0, 0, 1⟩ = ⟨0, 0, 0⟩ := by
  constructor
  · intro q
    rfl
  · simp only [quaternionToEuler, sinr_cosp, cosr_cosp, sinp, siny_cosp, cosy_cosp,
      atan2, EulerAngles.mk.injEq]
    norm_num [Real.arctan_zero, Real.arcsin_zero]

/-- Claim C2: the pitch gimbal-lock clamp of `quaternionToEuler` fires
exactly when |sinp| = |2(wy - zx)| ≥ 1, in which case pitch is exactly
sign(sinp)·90, which is ±90 and never an undefined value; when
|sinp| &lt; 1 (including sinp = 0, where sign would be 0) pitch is computed
by arcsine and its argument lies strictly inside (-1, 1), the domain on
which JavaScript `Math.asin` is NaN-free.  In this real-number embedding
every output of the converter is a total real-valued expression, so no
output of roll, pitch or yaw is undefined for any input. -/
theorem pitch_gimbal_clamp (q : Quaternion) :
    (1 ≤ |sinp q| →
      (quaternionToEuler q).pitch = Real.sign (sinp q) * 90
        ∧ ((quaternionToEuler q).pitch = 90 ∨ (quaternionToEuler q).pitch = -90))
    ∧ (|sinp q| < 1 →
      (quaternionToEuler q).pitch = Real.arcsin (sinp q) * (180 / Real.pi)
        ∧ -1 < sinp q ∧ sinp q < 1) := by
  constructor
  · intro h
    have hp : (quaternionToEuler q).pitch = Real.sign (sinp q) * 90 := by
      unfold quaternionToEuler
      rw [if_pos h]
    refine ⟨hp, ?_⟩
    rcases lt_trichotomy (sinp q) 0 with hs | hs | hs
    · right
      rw [hp, Real.sign_of_neg hs]
      ring
    · exfalso
      rw [hs] at h
      simp at h
      linarith
    · left
      rw [hp, Real.sign_of_pos hs]
      ring
  · intro h
    have hn : ¬ 1 ≤ |sinp q| := not_le.mpr h
    have hp : (quaternionToEuler q).pitch = Real.arcsin (sinp q) * (180 / Real.pi) := by
      unfold quaternionToEuler
      rw [if_neg hn]
    obtain ⟨hl, hr⟩ := abs_lt.mp h
    exact ⟨hp, hl, hr⟩

/-- Witness for C2 at the gimbal-locked quaternion {x:0, y:1, z:0, w:1}
(sinp = 2): the clamp branch fires and pitch is exactly +90. -/
theorem pitch_gimbal_clamp_witness :
    (1 : ℝ) ≤ |sinp ⟨0, 1, 0, 1⟩|
      ∧ (quaternionToEuler ⟨0, 1, 0, 1⟩).pitch = Real.sign (sinp ⟨0, 1, 0, 1⟩) * 90 := by
  have h : (1 : ℝ) ≤ |sinp ⟨0, 1, 0, 1⟩| := by
    norm_num [sinp]
  exact ⟨h, ((pitch_gimbal_clamp ⟨0, 1, 0, 1⟩).1 h).1⟩

/-- Claim C10: for every unit quaternion the converter's roll and yaw lie
in [-180, 180] and its pitch lies in [-90, 90]: the atan2 outputs range
over (-pi, pi], the arcsine branch over [-pi/2, pi/2], and the clamp
branch is pinned to ±90.  (The bounds in fact hold for every quaternion;
the unit-norm hypothesis is the claim's.) -/
theorem euler_output_ranges (q : Quaternion)
    (h : q.x ^ 2 + q.y ^ 2 + q.z ^ 2 + q.w ^ 2 = 1) :
    (-180 ≤ (quaternionToEuler q).roll ∧ (quaternionToEuler q).roll ≤ 180)
    ∧ (-90 ≤ (quaternionToEuler q).pitch ∧ (quaternionToEuler q).pitch ≤ 90)
    ∧ (-180 ≤ (quaternionToEuler q).yaw ∧ (quaternionToEuler q).yaw ≤ 180) := by
  refine ⟨atan2_deg_range (sinr_cosp q) (cosr_cosp q), ?_,
    atan2_deg_range (siny_cosp q) (cosy_cosp q)⟩
  show -90 ≤ (if 1 ≤ |sinp q| then Real.sign (sinp q) * 90
      else Real.arcsin (sinp q) * (180 / Real.pi))
    ∧ (if 1 ≤ |sinp q| then Real.sign (sinp q) * 90
      else Real.arcsin (sinp q) * (180 / Real.pi)) ≤ 90
  split_ifs with hb
  · rcases lt_trichotomy (sinp q) 0 with hs | hs | hs
    · rw [Real.sign_of_neg hs]
      norm_num
    · rw [hs, Real.sign_zero]
      norm_num
    · rw [Real.sign_of_pos hs]
      norm_num
  · have h1 := Real.arcsin_le_pi_div_two (sinp q)
    have h2 := Real.neg_pi_div_two_le_arcsin (sinp q)
    have hpi := Real.pi_pos
    have hc : (0 : ℝ) < 180 / Real.pi := by positivity
    have heq : Real.pi / 2 * (180 / Real.pi) = 90 := by
      field_simp
      ring
    constructor
    · have hm := mul_le_mul_of_nonneg_right h2 hc.le
      calc (-90 : ℝ) = -(Real.pi / 2) * (180 / Real.pi) := by rw [neg_mul, heq]
      _ ≤ _ := hm
    · have hm := mul_le_mul_of_nonneg_right h1 hc.le
      calc Real.arcsin (sinp q) * (180 / Real.pi)
          ≤ Real.pi / 2 * (180 / Real.pi) := hm
      _ = 90 := heq

/-- Witness for C10 at the identity quaternion, a unit quaternion. -/
theorem euler_output_ranges_witness :
    (-180 ≤ (quaternionToEuler ⟨0, 0, 0, 1⟩).roll
        ∧ (quaternionToEuler ⟨0, 0, 0, 1⟩).roll ≤ 180)
    ∧ (-90 ≤ (quaternionToEuler ⟨0, 0, 0, 1⟩).pitch
        ∧ (quaternionToEuler ⟨0, 0, 0, 1⟩).pitch ≤ 90)
    ∧ (-180 ≤ (quaternionToEuler ⟨0, 0, 0, 1⟩).yaw
        ∧ (quaternionToEuler ⟨0, 0, 0, 1⟩).yaw ≤ 180) :=
  euler_output_ranges ⟨0, 0, 0, 1⟩ (by norm_num)

/-- Claim C3: for every IMU message the heading the panel stores in the
telemetry snapshot is ((yaw + 360) % 360) of the converter's yaw, and it
always lies in [0, 360), the converter's yaw itself lying in [-180, 180]
because it is produced by atan2. -/
theorem heading_normalized (d : DroneData) (imu : ImuData) :
    (processImuMessage d imu).heading
        = jsMod ((quaternionToEuler imu.orientation).yaw + 360) 360
    ∧ 0 ≤ (processImuMessage d imu).heading
    ∧ (processImuMessage d imu).heading < 360
    ∧ -180 ≤ (quaternionToEuler imu.orientation).yaw
    ∧ (quaternionToEuler imu.orientation).yaw ≤ 180 := by
  have hyaw : -180 ≤ (quaternionToEuler imu.orientation).yaw
      ∧ (quaternionToEuler imu.orientation).yaw ≤ 180 :=
    atan2_deg_range (siny_cosp imu.orientation) (cosy_cosp imu.orientation)
  have hmod := jsMod_nonneg_lt ((quaternionToEuler imu.orientation).yaw + 360) 360
    (by linarith [hyaw.1]) (by norm_num)
  exact ⟨rfl, hmod.1, hmod.2, hyaw.1, hyaw.2⟩

/-- Claim C4 (amended): in the attitude indicator of
src/src/components/attitude-indicator.tsx the sky and ground rectangles
are drawn oversized — 6 radii wide and 3 radii tall, drawn from
`extendedSize = radius * 3` — before the roll rotation, and for every
roll and every pitch in [-90, 90] every point of the circular face of
radius `radius` is covered by the rotated sky or ground rectangle, so
the fill leaves no gap at the clip boundary.  (The claim as stated is
false for the second cited variant, src/unnamed/part_003, whose
rectangles are only 2 radii by 1 radius; see the counterexample.) -/
theorem attitude_extended_covers_face (roll pitch radius : ℝ) (hr : 0 < radius)
    (h1 : -90 ≤ pitch) (h2 : pitch ≤ 90) :
    (skyRectExtended pitch radius).w = 6 * radius
    ∧ (skyRectExtended pitch radius).h = 3 * radius
    ∧ (groundRectExtended pitch radius).w = 6 * radius
    ∧ (groundRectExtended pitch radius).h = 3 * radius
    ∧ ∀ p : ℝ × ℝ, p.1 ^ 2 + p.2 ^ 2 ≤ radius ^ 2 →
        ∃ u : ℝ × ℝ,
          (Rect.mem (skyRectExtended pitch radius) u
            ∨ Rect.mem (groundRectExtended pitch radius) u)
          ∧ rotatePoint (roll * Real.pi / 180) u = p := by
  refine ⟨by unfold skyRectExtended extendedSize ; ring,
    by unfold skyRectExtended extendedSize ; ring,
    by unfold groundRectExtended extendedSize ; ring,
    by unfold groundRectExtended extendedSize ; ring, ?_⟩
  intro p hp
  set t := roll * Real.pi / 180 with ht
  have hcs := Real.sin_sq_add_cos_sq t
  set c := Real.cos t with hc
  set s := Real.sin t with hs
  set u1 := c * p.1 + s * p.2 with hu1
  set u2 := -s * p.1 + c * p.2 with hu2
  have hnorm : u1 ^ 2 + u2 ^ 2 ≤ radius ^ 2 := by
    have : u1 ^ 2 + u2 ^ 2 = (s ^ 2 + c ^ 2) * (p.1 ^ 2 + p.2 ^ 2) := by
      rw [hu1, hu2]
      ring
    rw [this, hcs, one_mul]
    exact hp
  have hub1 : -radius ≤ u1 ∧ u1 ≤ radius := by
    constructor <;>
      nlinarith [sq_nonneg (u1 + radius), sq_nonneg (u1 - radius), sq_nonneg u2]
  have hub2 : -radius ≤ u2 ∧ u2 ≤ radius := by
    constructor <;>
      nlinarith [sq_nonneg (u2 + radius), sq_nonneg (u2 - radius), sq_nonneg u1]
  have hpo1 : -(2 * radius) ≤ pitch / 45 * radius := by
    nlinarith [mul_nonneg (by linarith : (0 : ℝ) ≤ pitch / 45 + 2) hr.le]
  have hpo2 : pitch / 45 * radius ≤ 2 * radius := by
    nlinarith [mul_nonneg (by linarith : (0 : ℝ) ≤ 2 - pitch / 45) hr.le]
  have hrot : rotatePoint t (u1, u2) = p := by
    unfold rotatePoint
    rw [Prod.ext_iff]
    constructor
    · show c * (u1, u2).1 - s * (u1, u2).2 = p.1
      simp only [hu1, hu2]
      linear_combination p.1 * hcs
    · show s * (u1, u2).1 + c * (u1, u2).2 = p.2
      simp only [hu1, hu2]
      linear_combination p.2 * hcs
  rcases le_or_lt u2 (-(pitch / 45 * radius)) with hcase | hcase
  · refine ⟨(u1, u2), Or.inl ?_, hrot⟩
    unfold Rect.mem skyRectExtended extendedSize pitchOffsetExtended
    refine ⟨?_, ?_, ?_, ?_⟩ <;> simp only <;> linarith [hub1.1, hub1.2, hub2.1, hub2.2]
  · refine ⟨(u1, u2), Or.inr ?_, hrot⟩
    unfold Rect.mem groundRectExtended extendedSize pitchOffsetExtended
    refine ⟨?_, ?_, ?_, ?_⟩ <;> simp only <;> linarith [hub1.1, hub1.2, hub2.1, hub2.2]

/-- Witness for C4 (amended) at roll 0, pitch 0, radius 90, face point
(0, 45). -/
theorem attitude_extended_covers_face_witness :
    ∃ u : ℝ × ℝ,
      (Rect.mem (skyRectExtended 0 90) u ∨ Rect.mem (groundRectExtended 0 90) u)
      ∧ rotatePoint (0 * Real.pi / 180) u = ((0 : ℝ), (45 : ℝ)) := by
  have h := (attitude_extended_covers_face 0 0 90 (by norm_num) (by norm_num)
    (by norm_num)).2.2.2.2
  exact h ((0 : ℝ), (45 : ℝ)) (by norm_num)

/-- Counterexample to claim C4 as stated: in the src/unnamed/part_003
attitude indicator the sky and ground rectangles are only one radius
tall (not 2-3 times the radius), and already at roll = 0 (where the
rotation is the identity), pitch = 45, radius = 90, the face point
(0, 80) lies inside the circular clip region but in neither rectangle —
a gap at the clip boundary. -/
theorem attitude_minimal_gap :
    ((0 : ℝ) ^ 2 + 80 ^ 2 ≤ 90 ^ 2)
    ∧ ¬ (Rect.mem (skyRectMinimal 45 90) ((0 : ℝ), (80 : ℝ))
        ∨ Rect.mem (groundRectMinimal 45 90) ((0 : ℝ), (80 : ℝ)))
    ∧ rotatePoint 0 ((0 : ℝ), (80 : ℝ)) = ((0 : ℝ), (80 : ℝ))
    ∧ (skyRectMinimal 45 90).h = 90
    ∧ (groundRectMinimal 45 90).h = 90
    ∧ (skyRectMinimal 45 90).h < 2 * 90 := by
  refine ⟨by norm_num, ?_, ?_, rfl, rfl, by norm_num [skyRectMinimal]⟩
  · rintro (h | h)
    · unfold Rect.mem skyRectMinimal pitchOffsetMinimal at h
      norm_num at h
    · unfold Rect.mem groundRectMinimal pitchOffsetMinimal at h
      norm_num at h
  · unfold rotatePoint
    norm_num [Real.cos_zero, Real.sin_zero]

/-- Counterexample to claim C5 as stated: the airspeed indicator does not
clamp — at airspeed 60 with maxAirspeed 30 the computed needle angle
differs from the needle angle at maxAirspeed. -/
theorem airspeed_no_clamp :
    airspeedNeedleAngle 60 30 ≠ airspeedNeedleAngle 30 30 := by
  unfold airspeedNeedleAngle airspeedTotalAngle airspeedStartAngle airspeedEndAngle
  intro h
  have hpi := Real.pi_pos
  nlinarith [h]

/-- Claim C5 (amended): only the vertical-speed indicator clamps its
value to the configured range before mapping to the needle angle; the
airspeed indicator maps the raw value linearly, so an airspeed above
maxAirspeed overshoots — its needle angle is strictly beyond the angle
at maxAirspeed. -/
theorem clamp_semantics (a m : ℝ) (hm : 0 < m) (ha : m < a) :
    vsiNeedleAngle a m = vsiNeedleAngle m m
    ∧ airspeedNeedleAngle m m < airspeedNeedleAngle a m := by
  constructor
  · unfold vsiNeedleAngle vsiNeedleValue
    rw [min_eq_left ha.le, min_self]
  · unfold airspeedNeedleAngle
    have ht : 0 < airspeedTotalAngle := by
      unfold airspeedTotalAngle airspeedStartAngle airspeedEndAngle
      nlinarith [Real.pi_pos]
    have h1 : m / m = 1 := div_self hm.ne'
    have h2 : 1 < a / m := (one_lt_div hm).mpr ha
    rw [h1]
    nlinarith [mul_lt_mul_of_pos_right h2 ht]

/-- Witness for C5 (amended) at airspeed/verticalSpeed 60, range 30. -/
theorem clamp_semantics_witness :
    vsiNeedleAngle 60 30 = vsiNeedleAngle 30 30
    ∧ airspeedNeedleAngle 30 30 < airspeedNeedleAngle 60 30 :=
  clamp_semantics 60 30 (by norm_num) (by norm_num)

/-- Counterexample to claim C6 as stated: the vertical-speed gauge's full
primitive set for verticalSpeed = 999 (maxVerticalSpeed = 5) is not
identical to the one for verticalSpeed = 5, because the digital readout
prints the raw value. -/
theorem vsi_render_not_identical : vsiRender 999 5 ≠ vsiRender 5 5 := by
  intro h
  have h9 : (vsiRender 999 5).readoutValue = (vsiRender 5 5).readoutValue := by
    rw [h]
  have h5 : (999 : ℝ) = 5 := h9
  norm_num at h5

/-- Claim C6 (amended): for any verticalSpeed at or beyond the configured
range the needle is fully clamped — verticalSpeed 999 with
maxVerticalSpeed 5 produces exactly the needle angle of verticalSpeed 5,
with no overshoot — but the digital readout primitive carries the raw
value, so the gauges differ only in that readout. -/
theorem vsi_needle_clamps (vs m : ℝ) (hm : 0 < m) (h : m ≤ vs) :
    (vsiRender vs m).needleAngle = (vsiRender m m).needleAngle
    ∧ (vsiRender vs m).readoutValue = vs := by
  constructor
  · show vsiNeedleAngle vs m = vsiNeedleAngle m m
    unfold vsiNeedleAngle vsiNeedleValue
    rw [min_eq_left h, min_self]
  · rfl

/-- Witness for C6 (amended) at verticalSpeed 999, maxVerticalSpeed 5. -/
theorem vsi_needle_clamps_witness :
    (vsiRender 999 5).needleAngle = (vsiRender 5 5).needleAngle
    ∧ (vsiRender 999 5).readoutValue = 999 :=
  vsi_needle_clamps 999 5 (by norm_num) (by norm_num)

/-- Claim C7: the airspeed risk-zone arcs partition the bounded arc from
-135° to +135° in the exact fractional split 10/10/60/10/10 — red from
the start angle to 10% of the sweep, yellow to 20%, green to 80%,
yellow to 90%, red to the end angle — for any maxAirspeed. -/
theorem airspeed_zone_partition (maxAirspeed : ℝ) :
    airspeedStartAngle = -(135 * Real.pi / 180)
    ∧ airspeedEndAngle = 135 * Real.pi / 180
    ∧ (airspeedZones maxAirspeed).map ArcZone.color
        = [ZoneColor.red, ZoneColor.yellow, ZoneColor.green, ZoneColor.yellow,
           ZoneColor.red]
    ∧ (airspeedZones maxAirspeed).map ArcZone.arcStart
        = [airspeedStartAngle,
           airspeedStartAngle + airspeedTotalAngle * 0.1,
           airspeedStartAngle + airspeedTotalAngle * 0.2,
           airspeedStartAngle + airspeedTotalAngle * 0.8,
           airspeedStartAngle + airspeedTotalAngle * 0.9]
    ∧ (airspeedZones maxAirspeed).map ArcZone.arcEnd
        = [airspeedStartAngle + airspeedTotalAngle * 0.1,
           airspeedStartAngle + airspeedTotalAngle * 0.2,
           airspeedStartAngle + airspeedTotalAngle * 0.8,
           airspeedStartAngle + airspeedTotalAngle * 0.9,
           airspeedStartAngle + airspeedTotalAngle * 1]
    ∧ (airspeedZones maxAirspeed).map (fun z => z.arcEnd - z.arcStart)
        = [airspeedTotalAngle * 0.1, airspeedTotalAngle * 0.1,
           airspeedTotalAngle * 0.6, airspeedTotalAngle * 0.1,
           airspeedTotalAngle * 0.1] := by
  have hse : airspeedEndAngle = airspeedStartAngle + airspeedTotalAngle * 1 := by
    unfold airspeedTotalAngle
    ring
  refine ⟨?_, ?_, rfl, rfl, ?_, ?_⟩
  · unfold airspeedStartAngle
    ring
  · unfold airspeedEndAngle
    ring
  · simp only [airspeedZones, List.map]
    rw [hse]
  · simp only [airspeedZones, List.map]
    refine congrArg₂ _ (by ring) (congrArg₂ _ (by ring) (congrArg₂ _ (by ring)
      (congrArg₂ _ (by ring) (congrArg₂ _ ?_ rfl))))
    rw [hse]
    ring

/-- Claim C8: the altimeter needle angle is the linear map
(altitude / maxAltitude) · 360° — one full revolution per maxAltitude —
and at altitude = maxAltitude / 2 the needle angle is exactly 180°
(pi radians). -/
theorem altimeter_needle_linear (altitude maxAltitude : ℝ)
    (hm : maxAltitude ≠ 0) :
    altimeterNeedleAngle altitude maxAltitude * (180 / Real.pi)
        = altitude / maxAltitude * 360
    ∧ altimeterNeedleAngle (maxAltitude / 2) maxAltitude = Real.pi := by
  constructor
  · unfold altimeterNeedleAngle
    field_simp
    ring
  · unfold altimeterNeedleAngle
    field_simp
    ring

/-- Witness for C8 at altitude 250, maxAltitude 500 (the default). -/
theorem altimeter_needle_linear_witness :
    altimeterNeedleAngle 250 500 * (180 / Real.pi) = 250 / 500 * 360
    ∧ altimeterNeedleAngle (500 / 2) 500 = Real.pi :=
  altimeter_needle_linear 250 500 (by norm_num)

/-- Claim C9: the compass dial rotation is invariant under adding 360°
to the heading — the rotation applied for heading h + 360 is the same
rotation of the plane as for heading h (equal cosine and sine), so
heading 370 renders the dial exactly as heading 10. -/
theorem compass_dial_mod360 (heading : ℝ) :
    Real.cos (compassDialAngle (heading + 360)) = Real.cos (compassDialAngle heading)
    ∧ Real.sin (compassDialAngle (heading + 360)) = Real.sin (compassDialAngle heading) := by
  have h : compassDialAngle (heading + 360) = compassDialAngle heading - 2 * Real.pi := by
    unfold compassDialAngle
    ring
  rw [h, Real.cos_sub_two_pi, Real.sin_sub_two_pi]
  exact ⟨rfl, rfl⟩

end FoxgloveExtension
